import Mathlib

/-!
Verification development for the Dumplings multi-agent orchestration layer.

Shallow embedding of the core components named by the specification:
the tool registry and its permission check (src/Dumplings/agent_tool.py),
the dual-key agent directory (src/Dumplings/Agent_list.py), and the
conversation loop of Agent.conversation_with_tool
(src/Dumplings/Agent_Base_.py): native function-calling accumulation and
dispatch, the XML tag extractor, signature-based parameter adaptation, the
hard-stop marker check and loop continuation.

Python strings are `String`, Python dicts are association lists, exceptions
and `sys.exit` are an explicit `Except` effect.  Printing to stdout
(`pack`/`out`/`print`) is not modelled: it does not influence control flow
or conversation state.  The HTTP transport, the `json` module and
`BeautifulSoup` are external collaborators: the turn-processing function is
parametric in the JSON argument parser and the per-block soup parser, and a
concrete `soupParseModel` mirroring BeautifulSoup behaviour on the
well-formed blocks the dispatcher consumes is supplied for concrete runs.
-/

namespace Dumplings

/-- Lookup in an association list; the first matching key wins
(Python dict semantics when updates are modelled by consing). -/
def lookupA {α : Type} (l : List (String × α)) (k : String) : Option α :=
  match l with
  | [] => none
  | (k', v) :: rest => if k' = k then some v else lookupA rest k

/-- Python dict assignment modelled by consing: the new binding shadows
old ones. -/
def dictSet {α : Type} (d : List (String × α)) (k : String) (v : α) :
    List (String × α) :=
  (k, v) :: d

/-- Replace the element at position `i` (Python list index assignment);
out-of-range leaves the list unchanged. -/
def modifyAt {α : Type} (l : List α) (i : Nat) (f : α → α) : List α :=
  match l, i with
  | [], _ => []
  | x :: xs, 0 => f x :: xs
  | x :: xs, n + 1 => x :: modifyAt xs n f

/-- Test that `pat` is a leading segment of `s`. -/
def leadsWith : List Char → List Char → Bool
  | [], _ => true
  | _ :: _, [] => false
  | p :: ps, c :: cs => p == c && leadsWith ps cs

/-- Test that `pat` occurs contiguously somewhere in `s`. -/
def hasSubList (pat : List Char) : List Char → Bool
  | [] => leadsWith pat []
  | c :: cs => leadsWith pat (c :: cs) || hasSubList pat cs

/-- Python substring containment on strings. -/
def pyIn (sub s : String) : Bool := hasSubList sub.data s.data

/-- Contiguous containment of `sub` in `s`, as a proposition. -/
def SubstringOf (sub s : String) : Prop :=
  ∃ l r, s.data = l ++ (sub.data ++ r)

/-- Equality of `Except` values is decidable componentwise; concrete turn
outcomes are compared with `decide`. -/
instance {ε α : Type} [DecidableEq ε] [DecidableEq α] :
    DecidableEq (Except ε α) := fun x y =>
  match x, y with
  | .ok a, .ok b =>
    if h : a = b then isTrue (by rw [h]) else isFalse (by simp [h])
  | .error a, .error b =>
    if h : a = b then isTrue (by rw [h]) else isFalse (by simp [h])
  | .ok _, .error _ => isFalse (by simp)
  | .error _, .ok _ => isFalse (by simp)

/-! Tool registry: agent_tool.py, class `tool`. -/

/-- One registered tool as `register_tool` stores it: `allowed_agents` is
`None` (unrestricted) or an explicit allow-list.  The callable itself is
modelled separately where the dispatch claims need it. -/
structure ToolInfo where
  allowed_agents : Option (List String)
  description : String
deriving DecidableEq

/-- The registry state: the name-to-info map and the uuid-to-name map. -/
structure ToolRegistry where
  tools : List (String × ToolInfo)
  uuid_to_name : List (String × String)

/-- The uuid-to-canonical-name resolution step inside `check_permission`
(agent_tool.py:116-119). -/
def canonicalName (r : ToolRegistry) (agentKey : String) : String :=
  match lookupA r.uuid_to_name agentKey with
  | some n => n
  | none => agentKey

/-- Permission check `tool.check_permission` (agent_tool.py:107-134):
unregistered tool gives `False`; the uuid is resolved to a name; a `None`
allow-list gives `True`; otherwise membership of the canonical name in the
allow-list decides. -/
def check_permission (r : ToolRegistry) (agentKey toolName : String) : Bool :=
  match lookupA r.tools toolName with
  | none => false
  | some info =>
    let name := canonicalName r agentKey
    match info.allowed_agents with
    | none => true
    | some allowed => allowed.contains name

/-! Agent directory: Agent_list.py, `register_agent`. -/

/-- Object identity of an agent instance (the single instantiated object
the decorator creates) is modelled by a token. -/
abbrev AgentObj := Nat

/-- Directory `agent_list`: one shared dict keyed by both uuid and name. -/
abbrev AgentDir := List (String × AgentObj)

/-- Decorator `register_agent` (Agent_list.py:4-16): the class is
instantiated once and the same instance is stored under `uuid` and then
under `name`. -/
def register_agent (uuid name : String) (inst : AgentObj) (d : AgentDir) :
    AgentDir :=
  dictSet (dictSet d uuid inst) name inst

/-! Python-side effects and callables. -/

/-- A raised Python exception, with `TypeError` distinguished because the
XML dispatch path catches exactly that class. -/
inductive PyExc
  | typeError (msg : String)
  | otherExc (msg : String)
deriving DecidableEq

/-- Message text of an exception, as Python `str` renders it. -/
def PyExc.str : PyExc → String
  | .typeError m => m
  | .otherExc m => m

/-- Effects a Python call can have besides returning: raising an exception,
or exiting the process (`SystemExit` is not an `Exception` subclass, so a
`sys.exit` inside a tool is a separate effect, invisible to
`except Exception`). -/
inductive PyEff
  | raised (e : PyExc)
  | exitProc
deriving DecidableEq

/-- Outcome of calling a Python callable. -/
abbrev PyResult := Except PyEff String

/-- A Python callable as the dispatcher sees it through `inspect.signature`
(Agent_Base_.py:437-444): whether it takes a keyword-variadic parameter,
how many parameters have no default (excluding variadic ones), and its
behaviour under the four call shapes the dispatcher can use. -/
structure PyCallable where
  has_kwargs : Bool
  required_params : Nat
  callKwargs : List (String × String) → PyResult
  callNoArgs : PyResult
  callPos : String → PyResult
  callRaw : String → PyResult

/-! Native function-calling accumulation, Agent_Base_.py:252-271. -/

/-- One accumulated entry of `tool_calls_list`. -/
structure ToolCallEntry where
  id : Option String
  name : String
  arguments : String
deriving DecidableEq

/-- One streamed delta fragment: its optional index, optional id, function
name (read only when a new entry is created) and optional arguments
piece. -/
structure CallFragment where
  index : Option Nat
  id : Option String
  name : String
  arguments : Option String
deriving DecidableEq

/-- Processing of one fragment (Agent_Base_.py:258-270): a fragment whose
index is at least the current list length appends a fresh entry (arguments
initialised to the fragment's arguments piece, defaulting to the empty
string); otherwise, when the fragment carries a non-`None` arguments
string, it is concatenated onto the entry at position `index`. -/
def accumulate_fragment (l : List ToolCallEntry) (c : CallFragment) :
    List ToolCallEntry :=
  match c.index with
  | none => l
  | some idx =>
    if l.length ≤ idx then
      l ++ [⟨c.id, c.name, c.arguments.getD ""⟩]
    else
      match c.arguments with
      | some a => modifyAt l idx (fun e => { e with arguments := e.arguments ++ a })
      | none => l

/-- The whole stream folded in arrival order into `tool_calls_list`. -/
def accumulate (frags : List CallFragment) : List ToolCallEntry :=
  frags.foldl accumulate_fragment []

/-! Conversation messages. -/

/-- One history entry.  `content` is `None` for the assistant message that
carries native tool calls; `toolCallId` and `name` are set on tool-role
result messages. -/
structure Message where
  role : String
  content : Option String
  toolCalls : List ToolCallEntry := []
  toolCallId : Option String := none
  name : Option String := none
deriving DecidableEq

/-- A system-role history entry with the given content. -/
def sysMsg (s : String) : Message := ⟨"system", some s, [], none, none⟩

/-! XML tag extraction, Agent_Base_.py:379-383.

The code strips the wrapper tags matched by the regular expression
`</?(out_text|thinking)>` with a single substitution pass, then scans with
`finditer` for the pattern `<(\w+)>.*?</\1>` under dot-matches-newline.
The functions below mirror those regex semantics: `\w` on the ASCII range
used by tool names, lazy `.*?` as the earliest occurrence of the matching
closing tag, greedy `\w+` followed by a mandatory `>` (so the name is the
maximal word run and no backtracking into it can succeed). -/

/-- Python word character on the ASCII range (letters, digits,
underscore). -/
def isWordChar (c : Char) : Bool := c.isAlphanum || c == '_'

/-- The closing tag text for a tag name. -/
def closeTag (name : List Char) : List Char := '<' :: '/' :: (name ++ ['>'])

/-- Split `s` at the first occurrence of `pat`: the part before the
occurrence and the part after it.  This is the lazy any-chars-then-pattern
semantics. -/
def splitAtSub (pat : List Char) : List Char → Option (List Char × List Char)
  | [] => if leadsWith pat [] then some ([], []) else none
  | c :: cs =>
    if leadsWith pat (c :: cs) then some ([], (c :: cs).drop pat.length)
    else
      match splitAtSub pat cs with
      | some (pre, rest) => some (c :: pre, rest)
      | none => none

/-- Try to match one tag block anchored at the head of `l`; on success
return the whole matched block and the remainder of the input. -/
def matchTagAt (l : List Char) : Option (List Char × List Char) :=
  match l with
  | '<' :: rest =>
    let name := rest.takeWhile isWordChar
    if name.isEmpty then none
    else
      match rest.drop name.length with
      | '>' :: body =>
        match splitAtSub (closeTag name) body with
        | some (inner, rest') =>
          some ('<' :: (name ++ ('>' :: (inner ++ closeTag name))), rest')
        | none => none
      | _ => none
  | _ => none

/-- Leftmost-match scan resuming after each match, as `finditer` does.
Fuel is the input length; each successful match consumes at least one
character, so the fuel never runs out on the recursion path taken. -/
def findBlocksAux : Nat → List Char → List (List Char)
  | 0, _ => []
  | _ + 1, [] => []
  | n + 1, c :: cs =>
    match matchTagAt (c :: cs) with
    | some (b, rest) => b :: findBlocksAux n rest
    | none => findBlocksAux n cs

/-- The four literal strings the wrapper-tag regular expression matches. -/
def wrapTagStrs : List (List Char) :=
  [("<out_text>").data, ("</out_text>").data,
   ("<thinking>").data, ("</thinking>").data]

/-- If one of the wrapper tags starts at the head of `l`, its length. -/
def matchWrapTag (l : List Char) : Option Nat :=
  (wrapTagStrs.find? (fun t => leadsWith t l)).map List.length

/-- Single left-to-right pass deleting every wrapper-tag occurrence.
Fuel is the input length; every deleted tag is non-empty. -/
def stripWrapAux : Nat → List Char → List Char
  | 0, _ => []
  | _ + 1, [] => []
  | n + 1, c :: cs =>
    match matchWrapTag (c :: cs) with
    | some k => stripWrapAux n ((c :: cs).drop k)
    | none => c :: stripWrapAux n cs

/-- Wrapper-tag removal producing `clean_content`
(Agent_Base_.py:381-382). -/
def stripWrap (s : String) : String := String.mk (stripWrapAux s.data.length s.data)

/-- Block extraction producing `xml_blocks` (Agent_Base_.py:380-383):
wrapper tags stripped first, then all regex blocks in order. -/
def findBlocks (s : String) : List String :=
  (findBlocksAux s.data.length s.data).map String.mk

/-! Per-block soup parsing.

The calls into BeautifulSoup with root extraction and the one-level
child-to-text mapping (Agent_Base_.py:389-432) use an external library; the
loop only consumes the optional root name and the child-tag to text
mapping.  BeautifulSoup runs the lxml XML parser in recovery mode, so a
mismatched or unclosed inner tag does not lose the root: the child is
auto-closed at its parent's closing tag.  The root lookup yields `None`
exactly when recovery drops the root element itself — notably when the tag
name is not a valid XML name, such as one starting with a digit, which the
regex scanner nevertheless matches through its word-character class.
`soupParseModel` mirrors this on blocks whose child elements hold plain
text. -/

/-- Valid first character of an XML element name on the ASCII range
(letter or underscore; digits are excluded, unlike the regex word
class). -/
def isXmlNameStart (c : Char) : Bool := c.isAlpha || c == '_'

/-- Python dict insertion preserving first-insertion order, as building
the params dict from child tags does. -/
def dictInsert (d : List (String × String)) (k v : String) :
    List (String × String) :=
  if (d.find? (fun p => p.1 == k)).isSome then
    d.map (fun p => if p.1 == k then (k, v) else p)
  else d ++ [(k, v)]

/-- Parse the one-level children of the root until its closing tag,
collecting name-and-text pairs.  Intervening text nodes have no tag name
and are skipped; an opening angle bracket that does not begin a well-formed
child element is treated as recovered text; a child whose own closing tag
never arrives is auto-closed at the root's closing tag (or at the end of
the input), its text being what recovery leaves inside it. -/
def parseChildrenAux (close : List Char) :
    Nat → List (String × String) → List Char → Option (List (String × String))
  | 0, _, _ => none
  | _ + 1, acc, [] => some acc
  | n + 1, acc, c :: cs =>
    if leadsWith close (c :: cs) then some acc
    else if c == '<' then
      let cname := cs.takeWhile isWordChar
      if cname.isEmpty || !(isXmlNameStart (cname.headI)) then
        parseChildrenAux close n acc cs
      else
        match cs.drop cname.length with
        | '>' :: body =>
          match splitAtSub (closeTag cname) body with
          | some (inner, rest') =>
            parseChildrenAux close n
              (dictInsert acc (String.mk cname) (String.mk inner)) rest'
          | none =>
            match splitAtSub close body with
            | some (inner, _) =>
              some (dictInsert acc (String.mk cname) (String.mk inner))
            | none => some (dictInsert acc (String.mk cname) (String.mk body))
        | _ => parseChildrenAux close n acc cs
    else parseChildrenAux close n acc cs

/-- Root name plus one-level child parameters of a block, or `none` where
recovery drops the root element and the root lookup gives `None` — in
particular when the root tag name is not a valid XML name (for example it
starts with a digit). -/
def soupParseModel (block : String) : Option (String × List (String × String)) :=
  match block.data with
  | '<' :: rest =>
    let name := rest.takeWhile isWordChar
    if name.isEmpty || !(isXmlNameStart (name.headI)) then none
    else
      match rest.drop name.length with
      | '>' :: body =>
        (parseChildrenAux (closeTag name) (body.length + 1) [] body).map
          (fun ps => (String.mk name, ps))
      | _ => none
  | _ => none

/-! Dispatch, Agent_Base_.py:324-364 and 387-459. -/

/-- A registered tool together with its callable, as the conversation loop
consumes it through `get_tool_info`. -/
structure RegTool where
  info : ToolInfo
  fn : PyCallable

/-- The registry as the loop sees it. -/
structure Registry where
  tools : List (String × RegTool)
  uuid_to_name : List (String × String)

/-- Forget the callables, leaving the data `check_permission` reads. -/
def Registry.asToolRegistry (r : Registry) : ToolRegistry :=
  ⟨r.tools.map (fun p => (p.1, p.2.info)), r.uuid_to_name⟩

/-- The permission query the loop makes before registry dispatch. -/
def Registry.permits (r : Registry) (agentKey toolName : String) : Bool :=
  check_permission r.asToolRegistry agentKey toolName

/-- The conversation-side state of one agent that the loop reads:
conversation history, its uuid, its callable attributes (the built-in tool
methods the loop probes for by name), and the tool names visible to it. -/
structure AgentState where
  history : List Message
  uuid : String
  methods : List (String × PyCallable)
  availableTools : List String

/-- Modelled from the spec: the method `_get_all_available_tools` is
called at Agent_Base_.py:415 but its definition is not among the provided
source files (the package init module and the `BaseAgent` subclass that
main.py imports are absent from them).  The spec says the dispatch-failure
message carries the list of tool names currently visible to the agent, so
that list is carried as the `availableTools` field of the agent state and
this accessor returns it. -/
def get_all_available_tools (ag : AgentState) : List String :=
  ag.availableTools

/-- Tool resolution order shared by both dispatch paths
(Agent_Base_.py:329-338 and 396-411): the permissioned registry first, then
a same-named callable attribute of the agent, else nothing. -/
def findTool (reg : Registry) (ag : AgentState) (tname : String) :
    Option PyCallable :=
  let fromReg : Option PyCallable :=
    if reg.permits ag.uuid tname then
      match lookupA reg.tools tname with
      | some rt => some rt.fn
      | none => none
    else none
  match fromReg with
  | some f => some f
  | none => lookupA ag.methods tname

/-- XML-path parameter adaptation and execution (Agent_Base_.py:437-456):
a keyword-variadic callable or zero required parameters spreads the parsed
mapping (or calls with no arguments); exactly one required parameter and
exactly one parsed parameter passes that single value positionally;
otherwise the mapping is spread and, only on a `TypeError`, the raw block
is passed instead as the fallback. -/
def xml_exec (f : PyCallable) (params : List (String × String))
    (block : String) : PyResult :=
  if f.has_kwargs || f.required_params == 0 then
    if params.isEmpty then f.callNoArgs else f.callKwargs params
  else if f.required_params == 1 && params.length == 1 then
    f.callPos params.headI.2
  else
    match f.callKwargs params with
    | .error (.raised (.typeError _)) => f.callRaw block
    | r => r

/-- Comma-space join of a list of strings. -/
def joinComma : List String → String
  | [] => ""
  | [s] => s
  | s :: rest => s ++ ", " ++ joinComma rest

/-- The dispatch-failure message (Agent_Base_.py:416-418): the tool name,
then, when any tools are visible, the joined list of their names. -/
def toolErrorMsg (toolName : String) (avail : List String) : String :=
  let base := "工具错误：找不到工具 '" ++ toolName ++ "'。"
  if avail.isEmpty then base
  else base ++ " 你可以使用以下工具：" ++ joinComma avail

/-- An entry of the XML-path `tool_results` list: either the error dict
recorded on dispatch failure, or a tool's returned value. -/
inductive XmlRes
  | errEntry (msg : String)
  | val (s : String)
deriving DecidableEq

/-- Rendering of a result inside the results f-string, as Python formats
it: an error dict prints in repr form, and because the dispatch-failure
message always embeds single quotes (and no double quotes), the repr
delimits the value with double quotes. -/
def XmlRes.toStr : XmlRes → String
  | .errEntry m => "\x7b'error': \"" ++ m ++ "\"\x7d"
  | .val s => s

/-- Accumulated state of the XML block loop: the mutated history, the
`tool_results` list and the `tool_names` list (names are appended only on
successful execution, Agent_Base_.py:458-459). -/
structure XmlAcc where
  history : List Message
  results : List XmlRes
  names : List String

/-- Processing of one XML block (Agent_Base_.py:387-459).  A block whose
soup root is `None` raises the ValueError with message 空 XML; an
unresolvable tool name appends the corrective system message and records an
error entry; otherwise the tool runs with adapted parameters, and a raised
exception or a process exit from inside the callable propagates. -/
def processBlock (sp : String → Option (String × List (String × String)))
    (reg : Registry) (ag : AgentState) (acc : XmlAcc) (block : String) :
    Except PyEff XmlAcc :=
  match sp block with
  | none => .error (.raised (.otherExc ("空 XML")))
  | some (tname, params) =>
    match findTool reg ag tname with
    | none =>
      let err := toolErrorMsg tname (get_all_available_tools ag)
      .ok ⟨acc.history ++ [sysMsg err], acc.results ++ [.errEntry err], acc.names⟩
    | some f =>
      match xml_exec f params block with
      | .error eff => .error eff
      | .ok r => .ok ⟨acc.history, acc.results ++ [.val r], acc.names ++ [tname]⟩

/-- The block loop in order; the first propagating effect aborts it. -/
def processBlocks (sp : String → Option (String × List (String × String)))
    (reg : Registry) (ag : AgentState) :
    XmlAcc → List String → Except PyEff XmlAcc
  | acc, [] => .ok acc
  | acc, b :: rest =>
    match processBlock sp reg ag acc b with
    | .error e => .error e
    | .ok acc' => processBlocks sp reg ag acc' rest

/-- The result-appending loop (Agent_Base_.py:469-475): each result is
paired with the name at the running position; the first index error is
swallowed by the bare except clause and breaks the loop. -/
def appendResults (names : List String) :
    List Message → Nat → List XmlRes → List Message
  | hist, _, [] => hist
  | hist, n, r :: rest =>
    match names.get? n with
    | none => hist
    | some nm =>
      appendResults names (hist ++ [sysMsg (nm ++ " results: " ++ r.toStr)])
        (n + 1) rest

/-- An entry of the native-path `tool_results` list
(Agent_Base_.py:340-364): the bare error dict for an unknown tool (it has
no call-id key), or a full result record. -/
inductive FcResult
  | errOnly (msg : String)
  | full (id : Option String) (nm : String) (content : String)
deriving DecidableEq

/-- The native-path execution error message: tool name and exception
text. -/
def fcErrMsg (tname msg : String) : String :=
  "执行工具 " ++ tname ++ " 时出错: " ++ msg

/-- Dispatch of one native call (Agent_Base_.py:324-364): resolve the tool;
unknown names give a bare error entry; the JSON parse of the accumulated
arguments and the call itself sit inside a try block catching `Exception`,
so a raised exception becomes the result content, while a process exit
(not an `Exception`) still escapes. -/
def fcDispatchCall (reg : Registry) (ag : AgentState)
    (jp : String → Except PyExc (List (String × String)))
    (tc : ToolCallEntry) : Except PyEff FcResult :=
  match findTool reg ag tc.name with
  | none => .ok (.errOnly ("找不到工具 '" ++ tc.name ++ "'"))
  | some f =>
    match jp tc.arguments with
    | .error e => .ok (.full tc.id tc.name (fcErrMsg tc.name e.str))
    | .ok args =>
      match f.callKwargs args with
      | .ok r => .ok (.full tc.id tc.name r)
      | .error (.raised e) => .ok (.full tc.id tc.name (fcErrMsg tc.name e.str))
      | .error .exitProc => .error .exitProc

/-- All native calls of the turn, dispatched sequentially in order. -/
def fcDispatchAll (reg : Registry) (ag : AgentState)
    (jp : String → Except PyExc (List (String × String))) :
    List ToolCallEntry → Except PyEff (List FcResult)
  | [] => .ok []
  | tc :: rest =>
    match fcDispatchCall reg ag jp tc with
    | .error e => .error e
    | .ok r =>
      match fcDispatchAll reg ag jp rest with
      | .error e => .error e
      | .ok rs => .ok (r :: rs)

/-- Appending native tool results to the history (Agent_Base_.py:367-373):
reading the call id of a bare error entry raises an uncaught key error. -/
def fcAppendMsgs : List Message → List FcResult → Except PyEff (List Message)
  | hist, [] => .ok hist
  | _, .errOnly _ :: _ =>
    .error (.raised (.otherExc ("KeyError: tool_call_id")))
  | hist, .full id nm content :: rest =>
    fcAppendMsgs (hist ++ [⟨"tool", some content, [], id, some nm⟩]) rest

/-- What the turn does after the response is collected. -/
inductive StepOutcome
  | exitProcess
  | continueLoop
  | returnContent (s : String)
  | returnLast
deriving DecidableEq

/-- The inputs of one post-response processing step: whether native
function calling is active, the accumulated `tool_calls_list`, the
concatenated text output, and the tool flag the method was entered
with. -/
structure TurnInput where
  fc_enabled : Bool
  tool_calls : List ToolCallEntry
  full_content : String
  toolFlag : Bool

/-- The post-response half of `conversation_with_tool`
(Agent_Base_.py:312-483).  With function calling enabled and a non-empty
`tool_calls_list`, the assistant message is appended, every call is
dispatched, the result messages are appended, and the loop re-enters the
sending state by the recursive call with the tool flag — the XML extraction
and the hard-stop check are never reached on that branch.  Otherwise,
wrapper tags are stripped, regex blocks are processed in order, then the
hard-stop marker contained anywhere in `full_content` exits the process,
then non-empty `tool_results` re-enter the sending state, then the tool
flag selects returning the last history entry versus the content.

A process exit raised inside a callable ends the process mid-turn; the
state at that point is unobservable (the process dies), so it is reported
as the pre-mutation state together with the exit outcome.  A propagating
exception is the error case of the whole step. -/
def turnStep (reg : Registry) (ag : AgentState)
    (sp : String → Option (String × List (String × String)))
    (jp : String → Except PyExc (List (String × String)))
    (inp : TurnInput) : Except PyExc (AgentState × StepOutcome) :=
  if inp.fc_enabled && !inp.tool_calls.isEmpty then
    let hist1 := ag.history ++ [⟨"assistant", none, inp.tool_calls, none, none⟩]
    match fcDispatchAll reg ag jp inp.tool_calls with
    | .error .exitProc => .ok ({ ag with history := hist1 }, .exitProcess)
    | .error (.raised e) => .error e
    | .ok results =>
      match fcAppendMsgs hist1 results with
      | .error .exitProc => .ok ({ ag with history := hist1 }, .exitProcess)
      | .error (.raised e) => .error e
      | .ok hist2 => .ok ({ ag with history := hist2 }, .continueLoop)
  else
    match processBlocks sp reg ag ⟨ag.history, [], []⟩
        (findBlocks (stripWrap inp.full_content)) with
    | .error .exitProc => .ok (ag, .exitProcess)
    | .error (.raised e) => .error e
    | .ok acc =>
      if pyIn ("<attempt_completion>") inp.full_content then
        .ok ({ ag with history := acc.history }, .exitProcess)
      else if !acc.results.isEmpty then
        .ok ({ ag with history := appendResults acc.names acc.history 0 acc.results },
             .continueLoop)
      else if inp.toolFlag then
        .ok ({ ag with history := acc.history }, .returnLast)
      else
        .ok ({ ag with history := acc.history }, .returnContent inp.full_content)

/-! Construction and connectivity, Agent_Base_.py:40-114. -/

/-- The augmented system prompt the constructor installs
(Agent_Base_.py:81): bare prompt, then the tool listing, then the literal
uuid suffix. -/
def initPrompt (prompt toolsPrompt uuid : String) : String :=
  prompt ++ toolsPrompt ++ ", 你的uuid " ++ uuid

/-- The history the constructor installs (Agent_Base_.py:84). -/
def initHistory (prompt toolsPrompt uuid : String) : List Message :=
  [sysMsg (initPrompt prompt toolsPrompt uuid)]

/-- Probe `Connectivity` (Agent_Base_.py:102-114): a throwaway user message
is appended, the probe round-trip runs, and the history is reset to exactly
one system message holding the bare `prompt` attribute; the boolean is the
status-code check. -/
def connectivity (prompt : String) (hist : List Message) (statusOk : Bool) :
    List Message × Bool :=
  let _probe := hist ++ [⟨"user", some ("你好"), [], none, none⟩]
  ([sysMsg prompt], statusOk)

/-! Concrete fixtures for counterexamples and witnesses. -/

/-- A callable that accepts anything and returns a fixed string. -/
def okCallable : PyCallable where
  has_kwargs := true
  required_params := 0
  callKwargs := fun _ => .ok ("ok")
  callNoArgs := .ok ("ok")
  callPos := fun _ => .ok ("ok")
  callRaw := fun _ => .ok ("ok")

/-- A callable that raises a non-TypeError exception on every call. -/
def boomCallable : PyCallable where
  has_kwargs := true
  required_params := 0
  callKwargs := fun _ => .error (.raised (.otherExc ("boom")))
  callNoArgs := .error (.raised (.otherExc ("boom")))
  callPos := fun _ => .error (.raised (.otherExc ("boom")))
  callRaw := fun _ => .error (.raised (.otherExc ("boom")))

/-- A two-required-parameter callable whose keyword call raises a
TypeError and whose raw-block fallback succeeds. -/
def tyErrCallable : PyCallable where
  has_kwargs := false
  required_params := 2
  callKwargs := fun _ => .error (.raised (.typeError ("bad args")))
  callNoArgs := .ok ("")
  callPos := fun _ => .ok ("")
  callRaw := fun b => .ok ("raw:" ++ b)

/-- A single-required-parameter callable. -/
def posCallable : PyCallable where
  has_kwargs := false
  required_params := 1
  callKwargs := fun _ => .ok ("")
  callNoArgs := .ok ("")
  callPos := fun v => .ok ("got:" ++ v)
  callRaw := fun _ => .ok ("")

/-- A JSON argument parser stub accepting everything as an empty
mapping. -/
def jsonStub : String → Except PyExc (List (String × String)) :=
  fun _ => .ok []

/-! Helper lemmas shared by the claim theorems. -/

theorem data_append (a b : String) : (a ++ b).data = a.data ++ b.data := rfl

theorem lookupA_dictSet_self {α : Type} (d : List (String × α)) (k : String)
    (v : α) : lookupA (dictSet d k v) k = some v := by
  simp [dictSet, lookupA]

theorem lookupA_dictSet_other {α : Type} (d : List (String × α)) (k k' : String)
    (v : α) (h : k ≠ k') : lookupA (dictSet d k v) k' = lookupA d k' := by
  simp [dictSet, lookupA, h]

theorem substringOf_parts (pre sub post : String) :
    SubstringOf sub (pre ++ sub ++ post) :=
  ⟨pre.data, post.data, by simp [data_append, List.append_assoc]⟩

/-- Claim C1 (amended): on the XML path — whenever native function calling
is disabled or the turn accumulated no native tool calls — a turn whose raw
text contains the hard-stop marker tag never re-enters the sending state:
every non-crashing outcome of the step is a process exit, even when valid
tool calls were executed in the same turn, so the continuation request
never follows.  (On the native path with accumulated calls the code
returns into the continuation before the marker check; see the
counterexample.) -/
theorem hard_stop_xml_path (reg : Registry) (ag : AgentState)
    (sp : String → Option (String × List (String × String)))
    (jp : String → Except PyExc (List (String × String))) (inp : TurnInput)
    (hfc : (inp.fc_enabled && !inp.tool_calls.isEmpty) = false)
    (hmark : pyIn ("<attempt_completion>") inp.full_content = true) :
    ∀ r, turnStep reg ag sp jp inp = Except.ok r → r.2 = StepOutcome.exitProcess := by
  intro r h
  unfold turnStep at h
  rw [hfc] at h
  simp only [Bool.false_eq_true, if_false] at h
  cases hpb : processBlocks sp reg ag ⟨ag.history, [], []⟩
      (findBlocks (stripWrap inp.full_content)) with
  | error e =>
    rw [hpb] at h
    cases e with
    | exitProc =>
      simp only [Except.ok.injEq] at h
      rw [← h]
    | raised e' => simp at h
  | ok acc =>
    rw [hpb] at h
    simp only [hmark, if_true] at h
    simp only [Except.ok.injEq] at h
    rw [← h]

/-- Witness for claim C1 at a concrete XML-path turn whose text carries
both an executable tool block and the hard-stop marker. -/
theorem hard_stop_xml_path_witness :
    ((TurnInput.mk false [] ("<gt></gt><attempt_completion></attempt_completion>") false).fc_enabled
        && !(TurnInput.mk false [] ("<gt></gt><attempt_completion></attempt_completion>") false).tool_calls.isEmpty) = false ∧
    pyIn ("<attempt_completion>")
      (TurnInput.mk false [] ("<gt></gt><attempt_completion></attempt_completion>") false).full_content = true ∧
    (∀ r, turnStep ⟨[], []⟩ ⟨[], ("u"), [(("gt"), okCallable)], []⟩ soupParseModel jsonStub
        (TurnInput.mk false [] ("<gt></gt><attempt_completion></attempt_completion>") false)
        = Except.ok r → r.2 = StepOutcome.exitProcess) :=
  ⟨by decide, by decide,
   hard_stop_xml_path ⟨[], []⟩ ⟨[], ("u"), [(("gt"), okCallable)], []⟩ soupParseModel jsonStub
     (TurnInput.mk false [] ("<gt></gt><attempt_completion></attempt_completion>") false)
     (by decide) (by decide)⟩

/-- Counterexample to claim C1 as stated: a native function-calling turn
whose raw text contains the hard-stop marker and which carries one valid
tool call dispatches the call, appends its result, and re-enters the
sending state — the process is not terminated before the continuation
request. -/
theorem hard_stop_fc_counterexample :
    (turnStep ⟨[], []⟩ ⟨[], ("u"), [(("foo"), okCallable)], []⟩ soupParseModel jsonStub
        (TurnInput.mk true [⟨some ("id0"), ("foo"), ("\x7b\x7d")⟩]
          ("pre <attempt_completion> post") false)).map
        (fun r => (r.1.history, r.2))
      = Except.ok
          ([⟨("assistant"), none, [⟨some ("id0"), ("foo"), ("\x7b\x7d")⟩], none, none⟩,
            ⟨("tool"), some ("ok"), [], some ("id0"), some ("foo")⟩],
           StepOutcome.continueLoop) ∧
    pyIn ("<attempt_completion>") ("pre <attempt_completion> post") = true := by
  decide

/-- Claim C2 (amended): on the native function-calling path every
exception raised while dispatching one tool call (argument parsing
included) is caught and converted into a result payload, so dispatch never
propagates a raised exception; on the XML path only a TypeError from the
keyword-spread call in the multi-parameter branch is caught, by retrying
with the raw block as a single argument.  Other XML-path exceptions
propagate; see the counterexample. -/
theorem tool_exception_handling (reg : Registry) (ag : AgentState)
    (jp : String → Except PyExc (List (String × String))) (tc : ToolCallEntry)
    (f : PyCallable) (params : List (String × String)) (block m : String)
    (h1 : f.has_kwargs = false) (h2 : f.required_params ≠ 0)
    (h3 : ¬(f.required_params = 1 ∧ params.length = 1))
    (hty : f.callKwargs params = Except.error (PyEff.raised (PyExc.typeError m))) :
    (∀ e, fcDispatchCall reg ag jp tc ≠ Except.error (PyEff.raised e)) ∧
    xml_exec f params block = f.callRaw block := by
  constructor
  · intro e h
    unfold fcDispatchCall at h
    cases hft : findTool reg ag tc.name with
    | none => simp [hft] at h
    | some g =>
      simp only [hft] at h
      cases hjp : jp tc.arguments with
      | error e' => simp [hjp] at h
      | ok args =>
        simp only [hjp] at h
        cases hck : g.callKwargs args with
        | ok r => simp [hck] at h
        | error eff =>
          cases eff with
          | raised e'' => simp [hck] at h
          | exitProc => simp [hck] at h
  · have hb1 : (f.has_kwargs || f.required_params == 0) = false := by
      simp [h1, h2]
    have hb2 : (f.required_params == 1 && params.length == 1) = false := by
      by_contra hc
      rw [Bool.not_eq_false, Bool.and_eq_true, beq_iff_eq, beq_iff_eq] at hc
      exact h3 hc
    unfold xml_exec
    rw [hb1, hb2]
    simp [hty]

/-- Witness for claim C2: concrete native dispatch never yields a raised
error, and a concrete two-parameter callable raising TypeError falls back
to the raw block. -/
theorem tool_exception_handling_witness :
    tyErrCallable.has_kwargs = false ∧
    tyErrCallable.required_params ≠ 0 ∧
    ¬(tyErrCallable.required_params = 1 ∧ ([] : List (String × String)).length = 1) ∧
    tyErrCallable.callKwargs [] = Except.error (PyEff.raised (PyExc.typeError ("bad args"))) ∧
    ((∀ e, fcDispatchCall ⟨[], []⟩ ⟨[], ("u"), [], []⟩ jsonStub ⟨some ("i"), ("t"), ("\x7b\x7d")⟩
        ≠ Except.error (PyEff.raised e)) ∧
      xml_exec tyErrCallable [] ("<t></t>") = tyErrCallable.callRaw ("<t></t>")) :=
  ⟨rfl, by decide, by decide, rfl,
   tool_exception_handling ⟨[], []⟩ ⟨[], ("u"), [], []⟩ jsonStub ⟨some ("i"), ("t"), ("\x7b\x7d")⟩
     tyErrCallable [] ("<t></t>") ("bad args") rfl (by decide) (by decide) rfl⟩

/-- Counterexample to claim C2 as stated: an XML-path tool whose callable
raises a non-TypeError exception crashes the loop — the whole turn step is
the propagated exception, not a result payload. -/
theorem tool_exception_propagates_counterexample :
    (turnStep ⟨[], []⟩ ⟨[], ("u"), [(("boom"), boomCallable)], []⟩ soupParseModel jsonStub
        (TurnInput.mk false [] ("<boom></boom>") false)).map (fun r => r.2)
      = Except.error (PyExc.otherExc ("boom")) := by
  decide

/-- Claim C3: an XML-path turn whose single block names a tool that is
neither a permitted registry tool nor an agent method appends exactly one
system-role message — the dispatch-failure text, which contains the tool
name and, when any tools are visible, their joined name list — records the
failure as an error result without raising, and the loop re-enters the
sending state for exactly one more model request. -/
theorem unknown_tool_roundtrip (reg : Registry) (ag : AgentState)
    (sp : String → Option (String × List (String × String)))
    (jp : String → Except PyExc (List (String × String))) (inp : TurnInput)
    (b tname : String) (params : List (String × String))
    (hfc : (inp.fc_enabled && !inp.tool_calls.isEmpty) = false)
    (hblocks : findBlocks (stripWrap inp.full_content) = [b])
    (hsp : sp b = some (tname, params))
    (hfind : findTool reg ag tname = none)
    (hmark : pyIn ("<attempt_completion>") inp.full_content = false) :
    turnStep reg ag sp jp inp
      = Except.ok
          ({ ag with history :=
              ag.history ++ [sysMsg (toolErrorMsg tname ag.availableTools)] },
           StepOutcome.continueLoop) ∧
    SubstringOf tname (toolErrorMsg tname ag.availableTools) ∧
    (ag.availableTools ≠ [] →
      SubstringOf (joinComma ag.availableTools) (toolErrorMsg tname ag.availableTools)) := by
  refine ⟨?_, ?_, ?_⟩
  · unfold turnStep
    rw [hfc]
    simp only [Bool.false_eq_true, if_false]
    rw [hblocks]
    simp only [processBlocks, processBlock, hsp, hfind, get_all_available_tools]
    simp only [hmark, Bool.false_eq_true, if_false]
    simp [appendResults]
  · by_cases h : ag.availableTools.isEmpty
    · have : toolErrorMsg tname ag.availableTools
          = ("工具错误：找不到工具 '") ++ tname ++ ("'。") := by
        simp [toolErrorMsg, h]
      rw [this]
      exact substringOf_parts _ _ _
    · have : toolErrorMsg tname ag.availableTools
          = ("工具错误：找不到工具 '") ++ tname
              ++ (("'。") ++ (" 你可以使用以下工具：") ++ joinComma ag.availableTools) := by
        simp [toolErrorMsg, h, String.append_assoc]
      rw [this]
      exact substringOf_parts _ _ _
  · intro hne
    have h : ag.availableTools.isEmpty = false := by
      cases hav : ag.availableTools with
      | nil => exact absurd hav hne
      | cons x xs => simp [hav, List.isEmpty]
    have : toolErrorMsg tname ag.availableTools
        = (("工具错误：找不到工具 '") ++ tname ++ ("'。") ++ (" 你可以使用以下工具："))
            ++ joinComma ag.availableTools ++ ("") := by
      simp [toolErrorMsg, h, String.append_assoc]
    rw [this]
    exact substringOf_parts _ _ _

/-- Witness for claim C3 at a concrete turn invoking an unregistered tool
name while one tool name is visible. -/
theorem unknown_tool_roundtrip_witness :
    ((TurnInput.mk false [] ("<unknown_tool></unknown_tool>") false).fc_enabled
        && !(TurnInput.mk false [] ("<unknown_tool></unknown_tool>") false).tool_calls.isEmpty) = false ∧
    findBlocks (stripWrap ("<unknown_tool></unknown_tool>")) = [("<unknown_tool></unknown_tool>")] ∧
    soupParseModel ("<unknown_tool></unknown_tool>") = some (("unknown_tool"), []) ∧
    findTool ⟨[], []⟩ ⟨[], ("u"), [], [("get_time")]⟩ ("unknown_tool") = none ∧
    pyIn ("<attempt_completion>") ("<unknown_tool></unknown_tool>") = false ∧
    (turnStep ⟨[], []⟩ ⟨[], ("u"), [], [("get_time")]⟩ soupParseModel jsonStub
        (TurnInput.mk false [] ("<unknown_tool></unknown_tool>") false)
      = Except.ok
          ({ AgentState.mk [] ("u") [] [("get_time")] with history :=
              ([] : List Message) ++ [sysMsg (toolErrorMsg ("unknown_tool") [("get_time")])] },
           StepOutcome.continueLoop) ∧
      SubstringOf ("unknown_tool") (toolErrorMsg ("unknown_tool") [("get_time")]) ∧
      ([("get_time")] ≠ ([] : List String) →
        SubstringOf (joinComma [("get_time")]) (toolErrorMsg ("unknown_tool") [("get_time")]))) :=
  ⟨by decide, by decide, by decide, rfl, by decide,
   unknown_tool_roundtrip ⟨[], []⟩ ⟨[], ("u"), [], [("get_time")]⟩ soupParseModel jsonStub
     (TurnInput.mk false [] ("<unknown_tool></unknown_tool>") false)
     ("<unknown_tool></unknown_tool>") ("unknown_tool") []
     (by decide) (by decide) (by decide) rfl (by decide)⟩

/-- Claim C4 (amended): a malformed XML block — one whose parsed root is
`None` — raises a ValueError that aborts the block-processing loop at that
block: the remaining blocks of the same turn are not processed, and the
exception escapes the loop instead of being recorded as a per-block
error. -/
theorem malformed_block_raises (reg : Registry) (ag : AgentState)
    (sp : String → Option (String × List (String × String)))
    (jp : String → Except PyExc (List (String × String))) (inp : TurnInput)
    (b : String) (rest : List String)
    (hfc : (inp.fc_enabled && !inp.tool_calls.isEmpty) = false)
    (hblocks : findBlocks (stripWrap inp.full_content) = b :: rest)
    (hsp : sp b = none) :
    turnStep reg ag sp jp inp = Except.error (PyExc.otherExc ("空 XML")) := by
  unfold turnStep
  rw [hfc]
  simp only [Bool.false_eq_true, if_false]
  rw [hblocks]
  simp only [processBlocks, processBlock, hsp]

/-- Witness for claim C4 at a concrete two-block turn whose first block
carries an XML-invalid tag name (it starts with a digit): the regex
matcher still extracts it, the parser recovery drops it, and the root
lookup gives nothing. -/
theorem malformed_block_raises_witness :
    ((TurnInput.mk false [] ("<1></1><c></c>") false).fc_enabled
        && !(TurnInput.mk false [] ("<1></1><c></c>") false).tool_calls.isEmpty) = false ∧
    findBlocks (stripWrap ("<1></1><c></c>")) = ("<1></1>") :: [("<c></c>")] ∧
    soupParseModel ("<1></1>") = none ∧
    turnStep ⟨[], []⟩ ⟨[], ("u"), [(("c"), okCallable)], []⟩ soupParseModel jsonStub
        (TurnInput.mk false [] ("<1></1><c></c>") false)
      = Except.error (PyExc.otherExc ("空 XML")) :=
  ⟨by decide, by decide, by decide,
   malformed_block_raises ⟨[], []⟩ ⟨[], ("u"), [(("c"), okCallable)], []⟩ soupParseModel jsonStub
     (TurnInput.mk false [] ("<1></1><c></c>") false)
     ("<1></1>") [("<c></c>")] (by decide) (by decide) (by decide)⟩

/-- Counterexample to claim C4 as stated: a turn whose first block has an
XML-invalid tag name — the root-is-`None` parse failure — and whose second
block is healthy ends in a propagated exception: no per-block error entry,
no processing of the second block — although the healthy block alone would
have been dispatched and continued the loop. -/
theorem malformed_block_counterexample :
    (turnStep ⟨[], []⟩ ⟨[], ("u"), [(("c"), okCallable)], []⟩ soupParseModel jsonStub
        (TurnInput.mk false [] ("<1></1><c></c>") false)).map (fun r => r.2)
      = Except.error (PyExc.otherExc ("空 XML")) ∧
    (turnStep ⟨[], []⟩ ⟨[], ("u"), [(("c"), okCallable)], []⟩ soupParseModel jsonStub
        (TurnInput.mk false [] ("<c></c>") false)).map (fun r => r.2)
      = Except.ok StepOutcome.continueLoop := by
  decide

/-- Claim C5: for a registered tool, a permission query with an explicit
allow-list succeeds exactly when the querying agent's canonical name (its
uuid resolved through the uuid-to-name mapping when such a mapping exists)
is a member of the list, and a tool registered with no allow-list is
permitted for every agent key. -/
theorem check_permission_spec (r : ToolRegistry) (agentKey toolName : String)
    (info : ToolInfo) (hreg : lookupA r.tools toolName = some info) :
    (∀ l, info.allowed_agents = some l →
      (check_permission r agentKey toolName = true ↔ canonicalName r agentKey ∈ l)) ∧
    (info.allowed_agents = none → check_permission r agentKey toolName = true) := by
  constructor
  · intro l hl
    simp [check_permission, hreg, hl, List.contains_iff_exists_mem_beq, beq_iff_eq]
  · intro hnone
    simp [check_permission, hreg, hnone]

/-- Witness for claim C5 at a concrete registry with one restricted and
one unrestricted tool and a uuid-to-name mapping. -/
theorem check_permission_spec_witness :
    (lookupA (ToolRegistry.mk
        [(("get_time"), ⟨some [("time_agent")], ("clock")⟩), (("free"), ⟨none, ("")⟩)]
        [(("u1"), ("time_agent"))]).tools ("get_time")
      = some ⟨some [("time_agent")], ("clock")⟩) ∧
    ((∀ l, (ToolInfo.mk (some [("time_agent")]) ("clock")).allowed_agents = some l →
      (check_permission (ToolRegistry.mk
          [(("get_time"), ⟨some [("time_agent")], ("clock")⟩), (("free"), ⟨none, ("")⟩)]
          [(("u1"), ("time_agent"))]) ("u1") ("get_time") = true ↔
        canonicalName (ToolRegistry.mk
          [(("get_time"), ⟨some [("time_agent")], ("clock")⟩), (("free"), ⟨none, ("")⟩)]
          [(("u1"), ("time_agent"))]) ("u1") ∈ l)) ∧
     ((ToolInfo.mk (some [("time_agent")]) ("clock")).allowed_agents = none →
      check_permission (ToolRegistry.mk
          [(("get_time"), ⟨some [("time_agent")], ("clock")⟩), (("free"), ⟨none, ("")⟩)]
          [(("u1"), ("time_agent"))]) ("u1") ("get_time") = true)) :=
  ⟨by decide,
   check_permission_spec _ ("u1") ("get_time") ⟨some [("time_agent")], ("clock")⟩ (by decide)⟩

/-- Claim C6: a callable with exactly one required parameter and no
keyword-variadic parameter, invoked via XML with exactly one parsed child
parameter, receives that child's text value positionally, whatever the
child tag's name. -/
theorem single_param_positional (f : PyCallable) (tag v block : String)
    (h1 : f.has_kwargs = false) (h2 : f.required_params = 1) :
    xml_exec f [(tag, v)] block = f.callPos v := by
  simp [xml_exec, h1, h2, List.headI]

/-- Witness for claim C6 at a concrete single-parameter callable and a
child tag whose name does not match the parameter name. -/
theorem single_param_positional_witness :
    posCallable.has_kwargs = false ∧
    posCallable.required_params = 1 ∧
    xml_exec posCallable [(("whatever"), ("42"))] ("<t><whatever>42</whatever></t>")
      = posCallable.callPos ("42") :=
  ⟨rfl, rfl,
   single_param_positional posCallable ("whatever") ("42")
     ("<t><whatever>42</whatever></t>") rfl rfl⟩

/-- Claim C7 (amended): native-call accumulator entries are tracked
positionally, not by index value — a fragment whose index equals or
exceeds the current entry count appends a fresh entry, and a fragment
whose index is below the count concatenates its arguments onto the entry
at that position, in arrival order; when indices arrive densely from zero
this coincides with new-index-initialises and seen-index-appends, and in
particular the two index-zero fragments of the claim assemble to the raw
arguments string, stored unparsed. -/
theorem native_accum_positional (l : List ToolCallEntry) (c : CallFragment)
    (idx : Nat) (a : String) (hidx : c.index = some idx) :
    (l.length ≤ idx →
      accumulate_fragment l c = l ++ [⟨c.id, c.name, c.arguments.getD ""⟩]) ∧
    (idx < l.length → c.arguments = some a →
      accumulate_fragment l c
        = modifyAt l idx (fun e => { e with arguments := e.arguments ++ a })) ∧
    accumulate [⟨some 0, some ("call_0"), ("f"), some ("\"a")⟩,
                ⟨some 0, none, ("f"), some ("\":1\x7d")⟩]
      = [⟨some ("call_0"), ("f"), ("\"a\":1\x7d")⟩] := by
  refine ⟨?_, ?_, by decide⟩
  · intro h
    simp [accumulate_fragment, hidx, h]
  · intro h ha
    simp [accumulate_fragment, hidx, Nat.not_le.mpr h, ha]

/-- Witness for claim C7: a concrete fragment starting index zero appends
a fresh entry. -/
theorem native_accum_positional_witness :
    (CallFragment.mk (some 0) (some ("w")) ("g") (some ("z"))).index = some 0 ∧
    accumulate_fragment [] (CallFragment.mk (some 0) (some ("w")) ("g") (some ("z")))
      = [] ++ [⟨some ("w"), ("g"), ("z")⟩] :=
  ⟨rfl, (native_accum_positional [] _ 0 ("z") rfl).1 (by decide)⟩

/-- Counterexample to claim C7 as stated: two fragments both carrying
index one — the second an already-seen index — produce two separate
entries, because the index-versus-length test appends whenever the index
is not below the current count; the second fragment's arguments are not
concatenated onto the first entry's buffer. -/
theorem native_accum_counterexample :
    accumulate [⟨some 1, some ("id1"), ("f"), some ("x")⟩,
                ⟨some 1, some ("id2"), ("g"), some ("y")⟩]
      = [⟨some ("id1"), ("f"), ("x")⟩, ⟨some ("id2"), ("g"), ("y")⟩] ∧
    (accumulate [⟨some 1, some ("id1"), ("f"), some ("x")⟩,
                 ⟨some 1, some ("id2"), ("g"), some ("y")⟩]).length ≠ 1 := by
  decide

/-- Claim C8: the XML extractor on the two-parameter example yields
exactly one parsed call with the root name and both child parameters, and
on a text holding only an unmatched closing tag yields zero calls with no
exception. -/
theorem xml_extractor_examples :
    (findBlocks (stripWrap ("<foo><x>1</x><y>2</y></foo>"))).map soupParseModel
      = [some (("foo"), [(("x"), ("1")), (("y"), ("2"))])] ∧
    findBlocks (stripWrap ("</foo>")) = [] := by
  decide

/-- Claim C9: registering an agent under a uuid and a name makes both
directory lookups succeed and resolve to the identical instance token,
hence the same object. -/
theorem register_agent_dual_key (uuid name : String) (inst : AgentObj)
    (d : AgentDir) :
    lookupA (register_agent uuid name inst d) uuid = some inst ∧
    lookupA (register_agent uuid name inst d) name = some inst := by
  refine ⟨?_, lookupA_dictSet_self _ _ _⟩
  by_cases h : name = uuid
  · subst h; exact lookupA_dictSet_self _ _ _
  · rw [register_agent, lookupA_dictSet_other _ _ _ _ h]
    exact lookupA_dictSet_self _ _ _

/-- Claim C10: after the connectivity probe the history is exactly one
system message holding the bare prompt attribute, and the constructor's
augmented prompt — which appends the tool listing and the uuid suffix — is
never equal to the bare prompt, so the reset history does not carry it. -/
theorem connectivity_reset_bare_prompt (prompt toolsPrompt uuid : String)
    (statusOk : Bool) :
    (connectivity prompt (initHistory prompt toolsPrompt uuid) statusOk).1
      = [sysMsg prompt] ∧
    initPrompt prompt toolsPrompt uuid ≠ prompt := by
  refine ⟨rfl, fun h => ?_⟩
  have hlen := congrArg String.length h
  simp [initPrompt, String.length_append] at hlen
  have h9 : (", 你的uuid ").length = 9 := rfl
  rw [h9] at hlen
  omega

/-- Witness for claim C10 at concrete prompt, tool listing and uuid. -/
theorem connectivity_reset_bare_prompt_witness :
    (connectivity ("p") (initHistory ("p") ("t") ("u")) true).1 = [sysMsg ("p")] ∧
    initPrompt ("p") ("t") ("u") ≠ ("p") :=
  connectivity_reset_bare_prompt ("p") ("t") ("u") true

end Dumplings
